import Mathlib

/-!
Verification of the polymorphic event-resolution subsystem of
`src/controller/graphql.go` (flynn controller GraphQL API).

The Go file is shallowly embedded: each resolver closure becomes a Lean
function on explicit inputs, `json.RawMessage` payloads become a small JSON
value type, the dynamic `interface{}` values flowing through resolvers become
a `GoVal` sum type, and Go run-time panics (failed type assertions, slice
index out of range) become explicit `panics` outcomes, so that crash freedom
is a provable statement rather than an implicit one.

Type definitions from packages outside `src/` (`controller/types`,
`router/types`) are modelled from the spec where noted.
-/

/-- A JSON value: models the contents of a `json.RawMessage` payload. -/
inductive Json where
  | jnull : Json
  | jbool : Bool → Json
  | jnum : Int → Json
  | jstr : String → Json
  | jarr : List Json → Json
  | jobj : List (String × Json) → Json

/-- First binding of a key in a JSON object's field list (the embedding keeps
object payloads with distinct keys, as `encoding/json` maps do). -/
def jsonLookup (fields : List (String × Json)) (key : String) : Option Json :=
  (fields.find? (fun f => f.1 = key)).map (fun f => f.2)

/-- Modelled from the spec: the event discriminator enumeration
(`ct.EventType*` string constants of `controller/types`, not under `src/`).
The spec fixes the eighteen members; the scenario in §8 shows the underscore
spelling (`"app_deletion"`). -/
def EventTypeApp : String := "app"
def EventTypeAppDeletion : String := "app_deletion"
def EventTypeAppRelease : String := "app_release"
def EventTypeDeployment : String := "deployment"
def EventTypeJob : String := "job"
def EventTypeScale : String := "scale"
def EventTypeRelease : String := "release"
def EventTypeReleaseDeletion : String := "release_deletion"
def EventTypeArtifact : String := "artifact"
def EventTypeProvider : String := "provider"
def EventTypeResource : String := "resource"
def EventTypeResourceDeletion : String := "resource_deletion"
def EventTypeResourceAppDeletion : String := "resource_app_deletion"
def EventTypeRoute : String := "route"
def EventTypeRouteDeletion : String := "route_deletion"
def EventTypeDomainMigration : String := "domain_migration"
def EventTypeClusterBackup : String := "cluster_backup"
def EventTypeAppGarbageCollection : String := "app_garbage_collection"

/-- The closed `object_type` enumeration of spec §3. -/
def eventTypeEnumeration : List String :=
  [EventTypeApp, EventTypeAppDeletion, EventTypeAppRelease, EventTypeDeployment,
   EventTypeJob, EventTypeScale, EventTypeRelease, EventTypeReleaseDeletion,
   EventTypeArtifact, EventTypeProvider, EventTypeResource,
   EventTypeResourceDeletion, EventTypeResourceAppDeletion, EventTypeRoute,
   EventTypeRouteDeletion, EventTypeDomainMigration, EventTypeClusterBackup,
   EventTypeAppGarbageCollection]

/-- Modelled from the spec: an event record (`ct.Event` of `controller/types`,
not under `src/`; fields per spec §3). -/
structure Event where
  id : Int
  objectType : String
  objectID : String
  appID : String
  createdAt : Option String
  data : Json

/-- A decoded payload struct whose individual fields no claim inspects: the
decoded value keeps the payload's JSON object fields. Stands for the pointee
of `&ct.App{}`, `&ct.Job{}`, etc. after `json.Unmarshal`. -/
structure GoStruct where
  fields : List (String × Json)

/-- Modelled from the spec: the nested release-deletion record
(`ct.ReleaseDeletion`, not under `src/`): "the nested deletion record's app
identifier" plus the rest of its payload fields. -/
structure ReleaseDeletion where
  appID : String
  rest : List (String × Json)

/-- Modelled from the spec: the `release-deletion` payload shape
(`ct.ReleaseDeletionEvent`, not under `src/`): carries the nested deletion
record. -/
structure ReleaseDeletionEvent where
  releaseDeletion : ReleaseDeletion
  rest : List (String × Json)

/-- Errors returned by `decodeEventObjectData`. -/
inductive DecodeError where
  /-- `fmt.Errorf("Invalid EventType: %s", typ)` from the default switch case. -/
  | invalidEventType : String → DecodeError
  /-- `encoding/json`: `Unmarshal` called with a non-pointer target returns
  `InvalidUnmarshalError` (named type recorded for diagnostics). -/
  | invalidUnmarshal : String → DecodeError
  /-- `encoding/json`: the payload does not fit the target shape. -/
  | unmarshalTypeError : String → DecodeError
deriving DecidableEq

/-- The typed value held in the `interface{}` result of
`decodeEventObjectData`: one constructor per concrete payload shape. -/
inductive EventData where
  | appData : GoStruct → EventData
  | appDeletionEventData : GoStruct → EventData
  | appReleaseData : GoStruct → EventData
  | deploymentEventData : GoStruct → EventData
  | jobData : GoStruct → EventData
  | scaleData : GoStruct → EventData
  | releaseData : GoStruct → EventData
  | releaseDeletionEventData : ReleaseDeletionEvent → EventData
  | artifactData : GoStruct → EventData
  | providerData : GoStruct → EventData
  | resourceData : GoStruct → EventData
  | routeData : GoStruct → EventData
  | domainMigrationData : GoStruct → EventData
  | clusterBackupData : GoStruct → EventData
  | appGarbageCollectionEventData : GoStruct → EventData

/-- The target value assigned to `obj` by the decode switch in
`decodeEventObjectData` (graphql.go lines 1150-1186). Every case takes a
pointer to a fresh struct except `route`/`route_deletion`, which assign the
non-pointer value `router.Route{}`. -/
inductive DecodeTarget where
  | ptrApp | ptrAppDeletionEvent | ptrAppRelease | ptrDeploymentEvent
  | ptrJob | ptrScale | ptrRelease | ptrReleaseDeletionEvent | ptrArtifact
  | ptrProvider | ptrResource | valRoute | ptrDomainMigration
  | ptrClusterBackup | ptrAppGarbageCollectionEvent
deriving DecidableEq

/-- The decode switch of `decodeEventObjectData`: which `obj` each
discriminator selects. `resource`, `resource_deletion` and
`resource_app_deletion` share `&ct.Resource{}`; `route` and `route_deletion`
share the non-pointer `router.Route{}`. The default case selects nothing. -/
def eventDecodeTarget (typ : String) : Option DecodeTarget :=
  if typ = EventTypeApp then some .ptrApp
  else if typ = EventTypeAppDeletion then some .ptrAppDeletionEvent
  else if typ = EventTypeAppRelease then some .ptrAppRelease
  else if typ = EventTypeDeployment then some .ptrDeploymentEvent
  else if typ = EventTypeJob then some .ptrJob
  else if typ = EventTypeScale then some .ptrScale
  else if typ = EventTypeRelease then some .ptrRelease
  else if typ = EventTypeReleaseDeletion then some .ptrReleaseDeletionEvent
  else if typ = EventTypeArtifact then some .ptrArtifact
  else if typ = EventTypeProvider then some .ptrProvider
  else if typ = EventTypeResource then some .ptrResource
  else if typ = EventTypeResourceDeletion then some .ptrResource
  else if typ = EventTypeResourceAppDeletion then some .ptrResource
  else if typ = EventTypeRoute then some .valRoute
  else if typ = EventTypeRouteDeletion then some .valRoute
  else if typ = EventTypeDomainMigration then some .ptrDomainMigration
  else if typ = EventTypeClusterBackup then some .ptrClusterBackup
  else if typ = EventTypeAppGarbageCollection then some .ptrAppGarbageCollectionEvent
  else none

/-- `json.Unmarshal` into a pointer to a struct none of whose fields the
claims inspect: a JSON object (or `null`) fits, anything else is a type
error, matching `encoding/json` semantics for struct targets. -/
def unmarshalStruct : Json → Except DecodeError GoStruct
  | Json.jobj fields => Except.ok ⟨fields⟩
  | Json.jnull => Except.ok ⟨[]⟩
  | _ => Except.error (DecodeError.unmarshalTypeError "cannot unmarshal payload into struct")

/-- Modelled from the spec: deserializing the nested deletion record; its app
identifier field is a string (absent or `null` leaves the zero value `""`). -/
def unmarshalReleaseDeletion : Json → Except DecodeError ReleaseDeletion
  | Json.jobj fields =>
      match jsonLookup fields "app" with
      | some (Json.jstr s) => Except.ok ⟨s, fields⟩
      | some Json.jnull => Except.ok ⟨"", fields⟩
      | none => Except.ok ⟨"", fields⟩
      | some _ => Except.error (DecodeError.unmarshalTypeError "cannot unmarshal field app into string")
  | Json.jnull => Except.ok ⟨"", []⟩
  | _ => Except.error (DecodeError.unmarshalTypeError "cannot unmarshal payload into ReleaseDeletion")

/-- Modelled from the spec: deserializing a `release-deletion` payload into
its shape, which carries the nested deletion record. -/
def unmarshalReleaseDeletionEvent : Json → Except DecodeError ReleaseDeletionEvent
  | Json.jobj fields =>
      match jsonLookup fields "release_deletion" with
      | some j => (unmarshalReleaseDeletion j).map (fun rd => ⟨rd, fields⟩)
      | none => Except.ok ⟨⟨"", []⟩, fields⟩
  | Json.jnull => Except.ok ⟨⟨"", []⟩, []⟩
  | _ => Except.error (DecodeError.unmarshalTypeError "cannot unmarshal payload into ReleaseDeletionEvent")

/-- `json.Unmarshal(data, obj)` for the target selected by the decode switch.
`encoding/json.Unmarshal` returns `InvalidUnmarshalError` whenever its target
is not a non-nil pointer, so the non-pointer `router.Route{}` target fails for
every payload before the payload is even inspected. -/
def jsonUnmarshalTarget (target : DecodeTarget) (data : Json) : Except DecodeError EventData :=
  match target with
  | .ptrApp => (unmarshalStruct data).map EventData.appData
  | .ptrAppDeletionEvent => (unmarshalStruct data).map EventData.appDeletionEventData
  | .ptrAppRelease => (unmarshalStruct data).map EventData.appReleaseData
  | .ptrDeploymentEvent => (unmarshalStruct data).map EventData.deploymentEventData
  | .ptrJob => (unmarshalStruct data).map EventData.jobData
  | .ptrScale => (unmarshalStruct data).map EventData.scaleData
  | .ptrRelease => (unmarshalStruct data).map EventData.releaseData
  | .ptrReleaseDeletionEvent => (unmarshalReleaseDeletionEvent data).map EventData.releaseDeletionEventData
  | .ptrArtifact => (unmarshalStruct data).map EventData.artifactData
  | .ptrProvider => (unmarshalStruct data).map EventData.providerData
  | .ptrResource => (unmarshalStruct data).map EventData.resourceData
  | .valRoute => Except.error (DecodeError.invalidUnmarshal "router.Route")
  | .ptrDomainMigration => (unmarshalStruct data).map EventData.domainMigrationData
  | .ptrClusterBackup => (unmarshalStruct data).map EventData.clusterBackupData
  | .ptrAppGarbageCollectionEvent => (unmarshalStruct data).map EventData.appGarbageCollectionEventData

/-- `decodeEventObjectData` (graphql.go lines 1148-1194): the switch selects
`obj`, the default case returns `Invalid EventType`, then the payload is
unmarshalled into `obj`. -/
def decodeEventObjectData (typ : String) (data : Json) : Except DecodeError EventData :=
  match eventDecodeTarget typ with
  | none => Except.error (DecodeError.invalidEventType typ)
  | some target => jsonUnmarshalTarget target data

/-- Outcome of resolving an event's `data` field: a typed value, a returned
error, or a Go run-time panic. -/
inductive DataFieldOutcome where
  | ok : EventData → DataFieldOutcome
  | err : DecodeError → DataFieldOutcome
  | panics : String → DataFieldOutcome

/-- The `data` field resolver built by `newEventObject` (graphql.go lines
1241-1250): decodes, then — before `err` is ever examined — type-asserts the
result to `*ct.ReleaseDeletionEvent` when the discriminator is
`release_deletion` and backfills the nested record's empty app identifier
from the event. A failed decode leaves `data` a nil interface, so the
assertion on the `release_deletion` path panics. -/
def dataFieldResolve (event : Event) : DataFieldOutcome :=
  match decodeEventObjectData event.objectType event.data with
  | Except.ok d =>
      if event.objectType = EventTypeReleaseDeletion then
        match d with
        | EventData.releaseDeletionEventData rde =>
            let rd := rde.releaseDeletion
            let rd' := if rd.appID = "" ∧ event.appID ≠ "" then { rd with appID := event.appID } else rd
            DataFieldOutcome.ok (EventData.releaseDeletionEventData { rde with releaseDeletion := rd' })
        | _ => DataFieldOutcome.panics "interface conversion: interface is not *ct.ReleaseDeletionEvent"
      else DataFieldOutcome.ok d
  | Except.error e =>
      if event.objectType = EventTypeReleaseDeletion then
        DataFieldOutcome.panics "interface conversion: interface is nil, not *ct.ReleaseDeletionEvent"
      else DataFieldOutcome.err e

/-- The concrete queryable event object types declared in `init` (graphql.go
lines 1062-1078): one per `event*Object` variable. -/
inductive EventGQLObject where
  | eventApp | eventAppDeletion | eventAppRelease | eventDeployment
  | eventJob | eventScale | eventRelease | eventReleaseDeletion
  | eventArtifact | eventProvider | eventResource | eventRoute
  | eventDomainMigration | eventClusterBackup | eventAppGarbageCollection
deriving DecidableEq

/-- `eventInterface`'s `ResolveType` switch (graphql.go lines 1104-1145):
maps the event's discriminator to the concrete queryable object type;
`resource_deletion` and `resource_app_deletion` resolve to
`eventResourceObject`, `route_deletion` to `eventRouteObject`; the fallthrough
returns the nil object (`none`). -/
def eventInterfaceResolveType (typ : String) : Option EventGQLObject :=
  if typ = EventTypeApp then some .eventApp
  else if typ = EventTypeAppDeletion then some .eventAppDeletion
  else if typ = EventTypeAppRelease then some .eventAppRelease
  else if typ = EventTypeDeployment then some .eventDeployment
  else if typ = EventTypeJob then some .eventJob
  else if typ = EventTypeScale then some .eventScale
  else if typ = EventTypeRelease then some .eventRelease
  else if typ = EventTypeReleaseDeletion then some .eventReleaseDeletion
  else if typ = EventTypeArtifact then some .eventArtifact
  else if typ = EventTypeProvider then some .eventProvider
  else if typ = EventTypeResource then some .eventResource
  else if typ = EventTypeResourceDeletion then some .eventResource
  else if typ = EventTypeResourceAppDeletion then some .eventResource
  else if typ = EventTypeRoute then some .eventRoute
  else if typ = EventTypeRouteDeletion then some .eventRoute
  else if typ = EventTypeDomainMigration then some .eventDomainMigration
  else if typ = EventTypeClusterBackup then some .eventClusterBackup
  else if typ = EventTypeAppGarbageCollection then some .eventAppGarbageCollection
  else none

/-- Modelled from the spec: a route record (`router.Route` of `router/types`,
not under `src/`): the opaque parent reference the `app` field resolver
inspects. -/
structure Route where
  parentRef : String

/-- Modelled from the spec: `ct.RouteParentRefPrefix`, the application-prefix
marker carried by a route's `parent_ref` when the route belongs to an app. -/
def RouteParentRefPrefix : String := "controller/apps/"

/-- `strings.HasPrefix`, character by character (byte-for-byte agrees on the
ASCII marker used here). -/
def goHasLeading (marker s : String) : Bool :=
  marker.data.isPrefixOf s.data

/-- `strings.TrimPrefix`: the string without the leading marker when the
marker is present, the string unchanged otherwise. -/
def goTrimLeading (marker s : String) : String :=
  if goHasLeading marker s then String.mk (s.data.drop marker.data.length) else s

/-- Outcome of resolving a route's `app` field: either exactly one
`api.appRepo.Get` collaborator lookup with the given key, or the absent value
(`nil, nil`) with zero collaborator calls. -/
inductive RouteAppResolution where
  | appLookup : String → RouteAppResolution
  | absent : RouteAppResolution
deriving DecidableEq

/-- `routeObject`'s `app` field resolver (graphql.go lines 1043-1049):
`strings.HasPrefix` guard, then one `api.appRepo.Get` keyed by
`strings.TrimPrefix(r.ParentRef, ct.RouteParentRefPrefix)`; otherwise
`nil, nil`. -/
def routeAppResolve (r : Route) : RouteAppResolution :=
  if goHasLeading RouteParentRefPrefix r.parentRef then
    RouteAppResolution.appLookup (goTrimLeading RouteParentRefPrefix r.parentRef)
  else
    RouteAppResolution.absent

/-- A Go `interface{}` value as it appears in `p.Args` and flows through the
resolver type assertions. -/
inductive GoVal where
  | vnull : GoVal
  | vint : Int → GoVal
  | vstr : String → GoVal
  | vlist : List GoVal → GoVal
  | vmapSS : List (String × String) → GoVal
  | vmapGV : List (String × GoVal) → GoVal

/-- A resolver's argument map `p.Args : map[string]interface{}`. -/
def Args : Type := List (String × GoVal)

/-- `p.Args[name]` with its presence bit (`i, ok := p.Args[name]`). -/
def argLookup (args : Args) (name : String) : Option GoVal :=
  (List.find? (fun a => a.1 = name) args).map (fun a => a.2)

/-- `i.(string)` on an optional argument, where an absent argument leaves the
zero value: `ok ""` when absent, the string when present, a Go panic
otherwise. -/
def goArgString : Option GoVal → Except String String
  | none => Except.ok ""
  | some (GoVal.vstr s) => Except.ok s
  | some _ => Except.error "interface conversion: interface is not string"

/-- The `if i, ok := p.Args[k]; ok \x7b if id, ok := i.(int); ok \x7b ... \x7d \x7d`
pattern: a present integer is taken, anything else is silently dropped. -/
def goArgIntOpt : Option GoVal → Option Int
  | some (GoVal.vint n) => some n
  | _ => none

/-- Same comma-ok pattern for `count`, whose zero value is `0`. -/
def goArgIntDefault (v : Option GoVal) : Int :=
  match goArgIntOpt v with
  | some n => n
  | none => 0

/-- The `for _, v := range i.([]interface \x7b\x7d) \x7b ... v.(string) ... \x7d`
loop body: every element must assert to `string`; the first non-string
element panics. -/
def goStringAll : List GoVal → Except String (List String)
  | [] => Except.ok []
  | GoVal.vstr s :: rest => (goStringAll rest).map (fun l => s :: l)
  | _ :: _ => Except.error "interface conversion: interface is not string"

/-- `object_types`: absent leaves the nil slice, a present value is asserted
to a list whose members are asserted to strings (panic otherwise). -/
def goArgStringList : Option GoVal → Except String (List String)
  | none => Except.ok []
  | some (GoVal.vlist xs) => goStringAll xs
  | some _ => Except.error "interface conversion: interface is not a slice"

/-- The single `api.eventRepo.ListEvents(appID, objectTypes, objectID,
beforeID, sinceID, count)` collaborator call an events resolver issues. -/
structure ListEventsCall where
  appID : String
  objectTypes : List String
  objectID : String
  beforeID : Option Int
  sinceID : Option Int
  count : Int
deriving DecidableEq

/-- Outcome of an events resolver: the collaborator call it makes, or a Go
run-time panic from a failed argument type assertion. The resolvers have no
error return of their own before the call. -/
inductive EventsResolveOutcome where
  | call : ListEventsCall → EventsResolveOutcome
  | panics : String → EventsResolveOutcome
deriving DecidableEq

/-- The `RootQuery` `events` resolver (graphql.go lines 2092-2127): reads
`app_id` (bare `.(string)` assertion), `before_id`/`since_id`/`count`
(comma-ok, silently dropped when not `int`), `object_types` (bare list and
string assertions) and `object_id` (bare string assertion), then calls
`ListEvents` once. -/
def rootEventsResolve (args : Args) : EventsResolveOutcome :=
  match goArgString (argLookup args "app_id") with
  | Except.error m => EventsResolveOutcome.panics m
  | Except.ok appID =>
    let beforeID := goArgIntOpt (argLookup args "before_id")
    let sinceID := goArgIntOpt (argLookup args "since_id")
    let count := goArgIntDefault (argLookup args "count")
    match goArgStringList (argLookup args "object_types") with
    | Except.error m => EventsResolveOutcome.panics m
    | Except.ok objectTypes =>
      match goArgString (argLookup args "object_id") with
      | Except.error m => EventsResolveOutcome.panics m
      | Except.ok objectID =>
        EventsResolveOutcome.call ⟨appID, objectTypes, objectID, beforeID, sinceID, count⟩

/-- Modelled from the spec: the app entity (`ct.App`, not under `src/`);
only its identifier is read by the resolvers embedded here. -/
structure CtApp where
  id : String

/-- The `appObject` `events` resolver (graphql.go lines 1805-1841): same
argument handling as the root resolver but scoped to the source app's ID. -/
def appEventsResolve (app : CtApp) (args : Args) : EventsResolveOutcome :=
  let beforeID := goArgIntOpt (argLookup args "before_id")
  let sinceID := goArgIntOpt (argLookup args "since_id")
  let count := goArgIntDefault (argLookup args "count")
  match goArgStringList (argLookup args "object_types") with
  | Except.error m => EventsResolveOutcome.panics m
  | Except.ok objectTypes =>
    match goArgString (argLookup args "object_id") with
    | Except.error m => EventsResolveOutcome.panics m
    | Except.ok objectID =>
      EventsResolveOutcome.call ⟨app.id, objectTypes, objectID, beforeID, sinceID, count⟩

/-- Modelled from the spec: one process-type entry of a release
(`ct.ProcessType`, not under `src/`); its own fields are opaque here. -/
structure ProcessType where
  fields : List (String × GoVal)

/-- Modelled from the spec: a release entity (`ct.Release`, not under
`src/`), restricted to the fields `createRelease` populates. -/
structure CtRelease where
  id : String
  artifactIDs : List String
  env : List (String × String)
  meta : List (String × String)
  processes : List (String × ProcessType)

/-- `json.Marshal(v)` then `json.Unmarshal(b, &release.Processes)` for
`release.Processes : map[string]ct.ProcessType`: the round trip succeeds
when `v` is a JSON-object-shaped map each of whose values is itself
object-shaped (or `null`, giving the zero `ProcessType`); a top-level `null`
leaves the preset empty map; any other shape fails to deserialize. -/
def decodeProcessValue : GoVal → Except String ProcessType
  | GoVal.vmapGV fs => Except.ok ⟨fs⟩
  | GoVal.vmapSS fs => Except.ok ⟨fs.map (fun f => (f.1, GoVal.vstr f.2))⟩
  | GoVal.vnull => Except.ok ⟨[]⟩
  | _ => Except.error "json: cannot unmarshal value into Go value of type ct.ProcessType"

def decodeProcessEntries : List (String × GoVal) → Except String (List (String × ProcessType))
  | [] => Except.ok []
  | (k, v) :: rest =>
      match decodeProcessValue v with
      | Except.error e => Except.error e
      | Except.ok p => (decodeProcessEntries rest).map (fun l => (k, p) :: l)

def decodeProcesses : GoVal → Except String (List (String × ProcessType))
  | GoVal.vmapGV entries => decodeProcessEntries entries
  | GoVal.vnull => Except.ok []
  | _ => Except.error "json: cannot unmarshal value into Go value of type map of ct.ProcessType"

/-- Outcome of the `createRelease` mutation resolver: the
`api.releaseRepo.Add(release)` write it reaches, an error returned before
any write, or a Go panic from a failed argument type assertion. -/
inductive CreateReleaseOutcome where
  | write : CtRelease → CreateReleaseOutcome
  | errBeforeWrite : String → CreateReleaseOutcome
  | panics : String → CreateReleaseOutcome

/-- `v.(string)` on a present argument (panics unless a string). -/
def goAssertString : GoVal → Except String String
  | GoVal.vstr s => Except.ok s
  | _ => Except.error "interface conversion: interface is not string"

/-- `v.(map[string]string)` on a present argument. -/
def goAssertMapSS : GoVal → Except String (List (String × String))
  | GoVal.vmapSS m => Except.ok m
  | _ => Except.error "interface conversion: interface is not map of string"

/-- `v.([]interface \x7b\x7d)` plus the per-element `aid.(string)` loop of the
`artifacts` argument. -/
def goAssertStringList : GoVal → Except String (List String)
  | GoVal.vlist xs => goStringAll xs
  | _ => Except.error "interface conversion: interface is not a slice"

/-- The `if v, ok := p.Args[k]; ok \x7b field = assert(v) \x7d` pattern: an
absent argument leaves the field's zero value, a present one must pass its
type assertion. -/
def goOptArg {α : Type} (zero : α) (assert : GoVal → Except String α)
    (v : Option GoVal) : Except String α :=
  match v with
  | none => Except.ok zero
  | some w => assert w

/-- The `RootMutation` `createRelease` resolver (graphql.go lines 2201-2229):
populates the release from present arguments in order (`id`, `artifacts`,
`env`, `meta`, `processes`); a `processes` value that fails the
marshal/unmarshal round trip returns its error before `releaseRepo.Add`;
otherwise the resolver reaches the single write. -/
def createReleaseResolve (args : Args) : CreateReleaseOutcome :=
  match goOptArg "" goAssertString (argLookup args "id") with
  | Except.error m => CreateReleaseOutcome.panics m
  | Except.ok id =>
    match goOptArg [] goAssertStringList (argLookup args "artifacts") with
    | Except.error m => CreateReleaseOutcome.panics m
    | Except.ok artifactIDs =>
      match goOptArg [] goAssertMapSS (argLookup args "env") with
      | Except.error m => CreateReleaseOutcome.panics m
      | Except.ok env =>
        match goOptArg [] goAssertMapSS (argLookup args "meta") with
        | Except.error m => CreateReleaseOutcome.panics m
        | Except.ok meta =>
          match argLookup args "processes" with
          | none => CreateReleaseOutcome.write ⟨id, artifactIDs, env, meta, []⟩
          | some v =>
            match decodeProcesses v with
            | Except.error e => CreateReleaseOutcome.errBeforeWrite e
            | Except.ok processes => CreateReleaseOutcome.write ⟨id, artifactIDs, env, meta, processes⟩

/-- Modelled from the spec: a deployment entity (`ct.Deployment`, not under
`src/`), restricted to the two fields the `deploy_timeout` claim mentions. -/
structure Deployment where
  status : String
  deployTimeout : Int

/-- The `deploymentObject` `deploy_timeout` field resolver (graphql.go lines
677-679): `return d.Status, nil` — it projects the `Status` field, not
`DeployTimeout`, despite the field's `Int` type and description. -/
def deployTimeoutResolve (d : Deployment) : GoVal :=
  GoVal.vstr d.status

/-- The `deploymentObject` `status` field resolver (graphql.go lines 670-672)
for comparison: also `return d.Status, nil`. -/
def deploymentStatusResolve (d : Deployment) : GoVal :=
  GoVal.vstr d.status

/-- Modelled from the spec: an artifact entity (`ct.Artifact`, not under
`src/`); identity is all `listArtifacts` moves around. -/
structure Artifact where
  id : String
deriving DecidableEq

/-- `artifactMap[id]` on the map returned by `artifactRepo.ListIDs` (keys
assumed distinct, as Go map keys are): a missing key yields the zero value
`nil` (`none`). -/
def mapIndex (m : List (String × Artifact)) (k : String) : Option Artifact :=
  (List.find? (fun a => a.1 = k) m).map (fun a => a.2)

/-- Result of `listArtifacts`: the returned slice (whose entries may be
`nil`), a forwarded repository error, or a Go run-time panic. -/
inductive ListArtifactsResult where
  | ok : List (Option Artifact) → ListArtifactsResult
  | err : String → ListArtifactsResult
  | panics : String → ListArtifactsResult
deriving DecidableEq

/-- `listArtifacts` (graphql.go lines 364-374), with the collaborator's
response (the `artifactRepo.ListIDs` map or its error) passed in explicitly.
The slice is allocated as `make([]*ct.Artifact, len(artifactMap))` — sized by
the MAP — and then written at the index of every requested ID: when the map
has fewer entries than there are IDs the write at index `len(artifactMap)`
panics (index out of range), and when it has more, trailing slots stay nil. -/
def listArtifacts (repoResult : Except String (List (String × Artifact)))
    (artifactIDs : List String) : ListArtifactsResult :=
  match repoResult with
  | Except.error e => ListArtifactsResult.err e
  | Except.ok artifactMap =>
      if artifactIDs.length ≤ artifactMap.length then
        ListArtifactsResult.ok
          (artifactIDs.map (mapIndex artifactMap)
            ++ List.replicate (artifactMap.length - artifactIDs.length) none)
      else
        ListArtifactsResult.panics "runtime error: index out of range"

/-- Outcome of the `releaseObject` `artifacts` field resolver: either the
empty list with zero collaborator calls, or one `ListIDs` collaborator call
on the release's artifact IDs followed by `listArtifacts`. -/
inductive ArtifactsFieldOutcome where
  | emptyNoCall : ArtifactsFieldOutcome
  | viaList : List String → ListArtifactsResult → ArtifactsFieldOutcome
deriving DecidableEq

/-- The `releaseObject` `artifacts` resolver (graphql.go lines 484-489):
`len(release.ArtifactIDs) == 0` short-circuits to the empty slice before any
collaborator call; otherwise it delegates to `listArtifacts`. -/
def releaseArtifactsResolve (release : CtRelease)
    (repoResult : Except String (List (String × Artifact))) : ArtifactsFieldOutcome :=
  if release.artifactIDs.length = 0 then
    ArtifactsFieldOutcome.emptyNoCall
  else
    ArtifactsFieldOutcome.viaList release.artifactIDs (listArtifacts repoResult release.artifactIDs)

/-! ## Theorems -/

/-- C1: the claim says every discriminator's valid payload decodes
successfully, `route` and `route-deletion` included. It does not: the decode
switch hands `json.Unmarshal` the non-pointer value `router.Route{}`, so
every `route`/`route_deletion` payload — the valid empty-object serialization
included — fails with `InvalidUnmarshalError`, while the sibling pointer
cases (here `app`) succeed on the same payload. -/
theorem decode_route_valid_payload_fails :
    (∀ data : Json, decodeEventObjectData EventTypeRoute data
        = Except.error (DecodeError.invalidUnmarshal "router.Route"))
    ∧ (∀ data : Json, decodeEventObjectData EventTypeRouteDeletion data
        = Except.error (DecodeError.invalidUnmarshal "router.Route"))
    ∧ decodeEventObjectData EventTypeApp (Json.jobj [])
        = Except.ok (EventData.appData ⟨[]⟩) :=
  ⟨fun _ => rfl, fun _ => rfl, rfl⟩

/-- C2: the claim says a payload that fails to decode always yields a decode
error and never a panic. For a `release_deletion` event the `data` resolver
type-asserts the decoded value to `*ct.ReleaseDeletionEvent` before looking
at the decode error, so a malformed payload leaves a nil interface and the
assertion panics. -/
theorem release_deletion_bad_payload_panics :
    decodeEventObjectData EventTypeReleaseDeletion (Json.jstr "corrupt")
      = Except.error (DecodeError.unmarshalTypeError "cannot unmarshal payload into ReleaseDeletionEvent")
    ∧ dataFieldResolve
        { id := 1, objectType := EventTypeReleaseDeletion, objectID := "",
          appID := "a1", createdAt := none, data := Json.jstr "corrupt" }
      = DataFieldOutcome.panics "interface conversion: interface is nil, not *ct.ReleaseDeletionEvent" :=
  ⟨rfl, rfl⟩

/-- C3: for a `release_deletion` event whose payload decodes, the resolved
`data` backfills the nested record's empty app identifier from the event when
the event's own `app_id` is non-empty, and never overwrites a populated
nested identifier. -/
theorem release_deletion_backfill (event : Event) (rde : ReleaseDeletionEvent)
    (hdec : decodeEventObjectData event.objectType event.data
      = Except.ok (EventData.releaseDeletionEventData rde))
    (htyp : event.objectType = EventTypeReleaseDeletion) :
    (rde.releaseDeletion.appID = "" → event.appID ≠ "" →
      dataFieldResolve event = DataFieldOutcome.ok (EventData.releaseDeletionEventData
        { rde with releaseDeletion := { rde.releaseDeletion with appID := event.appID } }))
    ∧ (rde.releaseDeletion.appID ≠ "" →
      dataFieldResolve event = DataFieldOutcome.ok (EventData.releaseDeletionEventData rde)) := by
  rw [htyp] at hdec
  constructor
  · intro h1 h2
    simp [dataFieldResolve, htyp, hdec, h1, h2]
  · intro h1
    simp [dataFieldResolve, htyp, hdec, h1]

/-- Witness for C3: a stored deletion record with an empty app identifier
inside an event owned by app `a1` resolves to the backfilled record. -/
theorem release_deletion_backfill_witness :
    dataFieldResolve
      { id := 7, objectType := EventTypeReleaseDeletion, objectID := "r1",
        appID := "a1", createdAt := none,
        data := Json.jobj [("release_deletion", Json.jobj [])] }
    = DataFieldOutcome.ok (EventData.releaseDeletionEventData
        ⟨⟨"a1", []⟩, [("release_deletion", Json.jobj [])]⟩) := by
  have h := release_deletion_backfill
    { id := 7, objectType := EventTypeReleaseDeletion, objectID := "r1",
      appID := "a1", createdAt := none,
      data := Json.jobj [("release_deletion", Json.jobj [])] }
    ⟨⟨"", []⟩, [("release_deletion", Json.jobj [])]⟩ rfl rfl
  exact h.1 rfl (by decide)

/-- C4: over the whole eighteen-member discriminator enumeration both
dispatch tables are total — the interface `ResolveType` switch returns a
non-nil object type and the decode switch selects a target — and the
many-to-one entries agree: the two resource-deletion discriminators resolve
to the resource object type and `route_deletion` to the route object type
(sharing the route decode shape as well). -/
theorem event_dispatch_tables_total :
    (eventTypeEnumeration.all
      (fun t => (eventInterfaceResolveType t).isSome && (eventDecodeTarget t).isSome)) = true
    ∧ eventInterfaceResolveType EventTypeResourceDeletion = some EventGQLObject.eventResource
    ∧ eventInterfaceResolveType EventTypeResourceAppDeletion = some EventGQLObject.eventResource
    ∧ eventInterfaceResolveType EventTypeResource = some EventGQLObject.eventResource
    ∧ eventInterfaceResolveType EventTypeRouteDeletion = some EventGQLObject.eventRoute
    ∧ eventInterfaceResolveType EventTypeRoute = some EventGQLObject.eventRoute
    ∧ eventDecodeTarget EventTypeResourceDeletion = eventDecodeTarget EventTypeResource
    ∧ eventDecodeTarget EventTypeResourceAppDeletion = eventDecodeTarget EventTypeResource
    ∧ eventDecodeTarget EventTypeRouteDeletion = eventDecodeTarget EventTypeRoute :=
  ⟨rfl, rfl, rfl, rfl, rfl, rfl, rfl, rfl, rfl⟩

/-- C5: a discriminator outside the closed enumeration makes
`decodeEventObjectData` return the `Invalid EventType` error and no decoded
value, whatever the payload. -/
theorem decode_unknown_event_type (typ : String) (h : typ ∉ eventTypeEnumeration)
    (data : Json) :
    decodeEventObjectData typ data = Except.error (DecodeError.invalidEventType typ) := by
  simp only [eventTypeEnumeration, List.mem_cons, List.not_mem_nil, or_false, not_or] at h
  obtain ⟨h1, h2, h3, h4, h5, h6, h7, h8, h9, h10, h11, h12, h13, h14, h15, h16, h17, h18⟩ := h
  unfold decodeEventObjectData eventDecodeTarget
  rw [if_neg h1, if_neg h2, if_neg h3, if_neg h4, if_neg h5, if_neg h6, if_neg h7,
      if_neg h8, if_neg h9, if_neg h10, if_neg h11, if_neg h12, if_neg h13, if_neg h14,
      if_neg h15, if_neg h16, if_neg h17, if_neg h18]

/-- Witness for C5 at the unknown discriminator `"cluster"`. -/
theorem decode_unknown_event_type_witness :
    "cluster" ∉ eventTypeEnumeration
    ∧ decodeEventObjectData "cluster" Json.jnull
        = Except.error (DecodeError.invalidEventType "cluster") :=
  ⟨by decide, decode_unknown_event_type "cluster" (by decide) Json.jnull⟩

/-- C7: a route whose `parent_ref` lacks the application marker resolves its
`app` field to the absent value with zero collaborator calls; one that
carries the marker issues exactly one app lookup keyed by the trimmed
`parent_ref`. -/
theorem route_app_resolution (r : Route) :
    (¬ goHasLeading RouteParentRefPrefix r.parentRef = true →
        routeAppResolve r = RouteAppResolution.absent)
    ∧ (goHasLeading RouteParentRefPrefix r.parentRef = true →
        routeAppResolve r = RouteAppResolution.appLookup
          (String.mk (r.parentRef.data.drop RouteParentRefPrefix.data.length))) := by
  constructor
  · intro h
    simp [routeAppResolve, h]
  · intro h
    simp [routeAppResolve, goTrimLeading, h]

/-- Witness for C7: both branches at concrete routes. -/
theorem route_app_resolution_witness :
    routeAppResolve ⟨"controller/apps/abc123"⟩ = RouteAppResolution.appLookup "abc123"
    ∧ routeAppResolve ⟨"http/my-router"⟩ = RouteAppResolution.absent := by
  constructor
  · have h := (route_app_resolution ⟨"controller/apps/abc123"⟩).2 (by decide)
    rw [h]
    decide
  · exact (route_app_resolution ⟨"http/my-router"⟩).1 (by decide)

/-- C6 counterexample: a present but non-integer `before_id` (and `since_id`
and `count`) does not fail the field resolution — both events resolvers
silently drop the filter and still make the `ListEvents` collaborator call. -/
theorem events_resolver_ignores_bad_cursor :
    rootEventsResolve [("before_id", GoVal.vstr "abc")]
      = EventsResolveOutcome.call ⟨"", [], "", none, none, 0⟩
    ∧ appEventsResolve ⟨"a1"⟩ [("since_id", GoVal.vstr "xyz"), ("count", GoVal.vstr "n")]
      = EventsResolveOutcome.call ⟨"a1", [], "", none, none, 0⟩ :=
  ⟨rfl, rfl⟩

/-- C6 amended: a present but non-integer `before_id` is silently ignored by
both events resolvers — the collaborator call happens anyway, without that
cursor bound and without any local error. -/
theorem events_resolver_drops_noninteger_cursor (args : Args) (v : GoVal)
    (hv : argLookup args "before_id" = some v)
    (hnotint : ∀ n : Int, v ≠ GoVal.vint n)
    (happ : ∃ a, goArgString (argLookup args "app_id") = Except.ok a)
    (hot : ∃ ts, goArgStringList (argLookup args "object_types") = Except.ok ts)
    (hoid : ∃ o, goArgString (argLookup args "object_id") = Except.ok o) :
    (∃ c : ListEventsCall,
      rootEventsResolve args = EventsResolveOutcome.call c ∧ c.beforeID = none)
    ∧ (∀ app : CtApp, ∃ c : ListEventsCall,
      appEventsResolve app args = EventsResolveOutcome.call c ∧ c.beforeID = none) := by
  obtain ⟨a, ha⟩ := happ
  obtain ⟨ts, hts⟩ := hot
  obtain ⟨o, ho⟩ := hoid
  have hb : goArgIntOpt (argLookup args "before_id") = none := by
    rw [hv]
    cases v with
    | vint n => exact absurd rfl (hnotint n)
    | vnull => rfl
    | vstr s => rfl
    | vlist xs => rfl
    | vmapSS m => rfl
    | vmapGV m => rfl
  constructor
  · refine ⟨⟨a, ts, o, none,
      goArgIntOpt (argLookup args "since_id"),
      goArgIntDefault (argLookup args "count")⟩, ?_, rfl⟩
    unfold rootEventsResolve
    rw [ha, hts, ho, hb]
  · intro app
    refine ⟨⟨app.id, ts, o, none,
      goArgIntOpt (argLookup args "since_id"),
      goArgIntDefault (argLookup args "count")⟩, ?_, rfl⟩
    unfold appEventsResolve
    rw [hts, ho, hb]

/-- Witness for the amended C6 at the concrete argument map where `before_id`
holds the string `"abc"`. -/
theorem events_resolver_drops_noninteger_cursor_witness :
    ∃ c : ListEventsCall,
      rootEventsResolve [("before_id", GoVal.vstr "abc")] = EventsResolveOutcome.call c
      ∧ c.beforeID = none := by
  have h := events_resolver_drops_noninteger_cursor
    [("before_id", GoVal.vstr "abc")] (GoVal.vstr "abc") rfl
    (fun n hn => GoVal.noConfusion hn) ⟨"", rfl⟩ ⟨[], rfl⟩ ⟨"", rfl⟩
  exact h.1

/-- C8: a `processes` argument that fails the map-of-process-types round trip
makes `createRelease` return the decode error before `releaseRepo.Add`: no
write outcome is reachable with such an argument, and with the remaining
arguments well-typed the resolver returns exactly that error. -/
theorem create_release_bad_processes_no_write (args : Args) (v : GoVal) (e : String)
    (hp : argLookup args "processes" = some v)
    (he : decodeProcesses v = Except.error e) :
    (∀ r : CtRelease, createReleaseResolve args ≠ CreateReleaseOutcome.write r)
    ∧ ((∃ i, goOptArg "" goAssertString (argLookup args "id") = Except.ok i) →
       (∃ al, goOptArg [] goAssertStringList (argLookup args "artifacts") = Except.ok al) →
       (∃ en, goOptArg [] goAssertMapSS (argLookup args "env") = Except.ok en) →
       (∃ me, goOptArg [] goAssertMapSS (argLookup args "meta") = Except.ok me) →
       createReleaseResolve args = CreateReleaseOutcome.errBeforeWrite e) := by
  constructor
  · intro r
    unfold createReleaseResolve
    split
    · simp
    · split
      · simp
      · split
        · simp
        · split
          · simp
          · simp [hp, he]
  · intro ⟨i, hi⟩ ⟨al, hal⟩ ⟨en, hen⟩ ⟨me, hme⟩
    unfold createReleaseResolve
    simp [hi, hal, hen, hme, hp, he]

/-- Witness for C8: calling `createRelease` with `processes` bound to the
string `"bad"` (a value no process-type map deserializes from). -/
theorem create_release_bad_processes_no_write_witness :
    createReleaseResolve [("processes", GoVal.vstr "bad")]
      = CreateReleaseOutcome.errBeforeWrite
          "json: cannot unmarshal value into Go value of type map of ct.ProcessType" := by
  have h := create_release_bad_processes_no_write
    [("processes", GoVal.vstr "bad")] (GoVal.vstr "bad")
    "json: cannot unmarshal value into Go value of type map of ct.ProcessType"
    rfl rfl
  exact h.2 ⟨"", rfl⟩ ⟨[], rfl⟩ ⟨[], rfl⟩ ⟨[], rfl⟩

/-- C9: the claim says the `deploy_timeout` scalar field projects the
instance's deploy-timeout value. The resolver actually returns `d.Status` —
the same projection as the `status` field — so a deployment with
`DeployTimeout = 120` resolves `deploy_timeout` to the string
`"pending"`. -/
theorem deploy_timeout_resolver_projects_status :
    deployTimeoutResolve ⟨"pending", 120⟩ = GoVal.vstr "pending"
    ∧ (∀ d : Deployment, deployTimeoutResolve d = deploymentStatusResolve d)
    ∧ (∀ d : Deployment, deployTimeoutResolve d = GoVal.vstr d.status) :=
  ⟨rfl, fun _ => rfl, fun _ => rfl⟩

/-- C10 counterexample: the claim permits the repository map to lack a
requested ID, but then the slice — allocated with the MAP's length — is
written past its end and `listArtifacts` panics instead of returning a list
with an absent entry. -/
theorem list_artifacts_missing_id_panics :
    listArtifacts (Except.ok []) ["a"]
      = ListArtifactsResult.panics "runtime error: index out of range" := rfl

/-- C10 amended: when the repository map binds exactly the requested IDs
(distinct IDs, one entry each), `listArtifacts` returns — without panicking —
one entry per requested ID in input order, each the map's artifact for that
ID; and a release with no artifact IDs resolves `artifacts` to the empty
list with zero collaborator calls. -/
theorem list_artifacts_complete_map (ids : List String)
    (m : List (String × Artifact))
    (hnd : ids.Nodup) (hmnd : (m.map Prod.fst).Nodup)
    (hmem : ∀ k, k ∈ m.map Prod.fst ↔ k ∈ ids) :
    listArtifacts (Except.ok m) ids = ListArtifactsResult.ok (ids.map (mapIndex m))
    ∧ (∀ release : CtRelease,
       ∀ repoResult : Except String (List (String × Artifact)),
        release.artifactIDs = [] →
        releaseArtifactsResolve release repoResult = ArtifactsFieldOutcome.emptyNoCall) := by
  have hperm : (m.map Prod.fst).Perm ids := (List.perm_ext_iff_of_nodup hmnd hnd).2 hmem
  have hlen : m.length = ids.length := by
    have h := hperm.length_eq
    simpa using h
  constructor
  · have hle : ids.length ≤ m.length := hlen.ge
    simp [listArtifacts, hle, hlen]
  · intro release repoResult h
    simp [releaseArtifactsResolve, h]

/-- Witness for the amended C10: one requested ID, present in the map. -/
theorem list_artifacts_complete_map_witness :
    listArtifacts (Except.ok [("a", (⟨"art-a"⟩ : Artifact))]) ["a"]
      = ListArtifactsResult.ok [some ⟨"art-a"⟩] := by
  have h := (list_artifacts_complete_map ["a"] [("a", ⟨"art-a"⟩)]
    (by decide) (by decide) (fun _ => Iff.rfl)).1
  rw [h]
  rfl
